import Mathlib

/-!
Shallow embedding of `scripts/gen_xlsx.py`: a synthetic server-inventory
generator that fabricates `count` random server records and exports them as a
single-sheet spreadsheet table.

The unseeded pseudo-random source is abstracted as a stream `RNG : Nat → Nat`
of draws; every call site of `random.choice`/`random.choices` consumes one
draw at a fixed position, and the element at (draw modulo population size) is
selected, so the chosen element is always a member of the population list.
The `i`-th record consumes draws `[18*i, 18*i + 18)`.
-/

/-- Abstract pseudo-random source: the value of the k-th draw taken from the
unseeded generator, as an arbitrary natural number. -/
abbrev RNG := Nat → Nat

/-- Population constant `string.ascii_uppercase`. -/
def ascii_uppercase : List Char := "ABCDEFGHIJKLMNOPQRSTUVWXYZ".toList

/-- Population constant `string.digits`. -/
def ascii_digits : List Char := "0123456789".toList

/-- Draw population of `random_string`: `string.ascii_uppercase + string.digits`. -/
def population : List Char := ascii_uppercase ++ ascii_digits

/-- One uniform element draw (`random.choice(l)` / one element of
`random.choices(l, k=…)`): the source supplies a natural `d` and the element
at index `d` modulo the list length is returned. -/
def choice {α : Type} (l : List α) (dflt : α) (d : Nat) : α :=
  l.getD (d % l.length) dflt

/-- The 6 random characters appended by `random_string` (its `length=6`
default), reading draws `base, base+1, …, base+5` of the source. -/
def randSuffix (g : RNG) (base : Nat) : List Char :=
  (List.range 6).map fun j => choice population 'A' (g (base + j))

/-- `random_string(prefix, length=6)`: the prefix followed by 6 characters
drawn from `string.ascii_uppercase + string.digits`. -/
def random_string (g : RNG) (base : Nat) (pre : String) : String :=
  pre ++ String.mk (randSuffix g base)

/-- Decimal rendering of a natural number (how an integer appears inside an
f-string); the first argument is recursion fuel, always called with enough. -/
def natDecimalAux : Nat → Nat → List Char
  | 0, _ => []
  | fuel + 1, n =>
    if n = 0 then [] else natDecimalAux fuel (n / 10) ++ [Char.ofNat (48 + n % 10)]

/-- Decimal rendering of a natural number, `"0"` for zero. -/
def natDecimal (n : Nat) : String :=
  if n = 0 then "0" else String.mk (natDecimalAux n n)

/-- Left inverse of `natDecimal`: read a decimal string back as a number. -/
def decodeDecimal (s : String) : Nat :=
  s.data.foldl (fun acc c => 10 * acc + (c.toNat - 48)) 0

/-- One row of the generated inventory: the dict appended to `servers` for
loop index `i`, with the fields in source order. -/
structure ServerRecord where
  server_id : String
  server_name : String
  status : String
  ipv4 : String
  description : String
  location : String
  os : String
  cpu : Nat
  ram : Nat
  disk : Nat
deriving DecidableEq, Repr

/-- The dict built in the loop body of `gen_xlsx.py` for loop index `i`:
random `server_id`/`server_name`, random enum fields, and `ipv4` and
`description` computed from `i` alone. -/
def mkServer (g : RNG) (i : Nat) : ServerRecord :=
  { server_id := random_string g (18 * i) "SRV"
    server_name := random_string g (18 * i + 6) "Server"
    status := choice ["ON", "OFF"] "ON" (g (18 * i + 12))
    ipv4 := "10.0." ++ natDecimal (i / 256) ++ "." ++ natDecimal (i % 256)
    description := "Generated server " ++ natDecimal (i + 1)
    location := choice ["US-East", "US-West", "EU-Central", "Asia-Pacific"] "US-East" (g (18 * i + 13))
    os := choice ["Ubuntu 20.04", "CentOS 7", "Debian 11", "Windows Server 2019"] "Ubuntu 20.04" (g (18 * i + 14))
    cpu := choice [2, 4, 8, 16] 2 (g (18 * i + 15))
    ram := choice [4, 8, 16, 32] 4 (g (18 * i + 16))
    disk := choice [100, 250, 500, 1000] 100 (g (18 * i + 17)) }

/-- The generation loop `for i in range(count)`, generalized over the count
(the script hard-codes 10000): records in generation order. -/
def generate (g : RNG) (count : Nat) : List ServerRecord :=
  (List.range count).map (mkServer g)

/-- The `servers` list of the script: `generate` at the hard-coded count. -/
def servers (g : RNG) : List ServerRecord := generate g 10000

/-- Column labels of `pd.DataFrame(servers)` when at least one record exists:
the dict keys in the order first encountered (all records share this order). -/
def schema : List String :=
  ["server_id", "server_name", "status", "ipv4", "description",
   "location", "os", "cpu", "ram", "disk"]

/-- One data row of the exported table: the record's field values in schema
order (numeric cells shown in decimal). -/
def rowOf (r : ServerRecord) : List String :=
  [r.server_id, r.server_name, r.status, r.ipv4, r.description,
   r.location, r.os, natDecimal r.cpu, natDecimal r.ram, natDecimal r.disk]

/-- Header row of `pd.DataFrame(records)`: field names in order of first
encounter; an empty record list yields a frame with no columns at all. -/
def headerOf (records : List ServerRecord) : List String :=
  match records with
  | [] => []
  | _ :: _ => schema

/-- A single-sheet tabular structure: header row plus data rows. -/
structure Table where
  header : List String
  rows : List (List String)
deriving DecidableEq, Repr

/-- `pd.DataFrame(records)` as written by `to_excel(..., index=False)`:
header row from the encountered field names, one data row per record, in
order. -/
def exportTable (records : List ServerRecord) : Table :=
  { header := headerOf records, rows := records.map rowOf }

/-- The completion line printed after a successful write. -/
def done_message : String := "✅ Đã tạo file servers_10000.xlsx"

/-- Reading the written workbook back: the table itself (row count and
column set are preserved by the round trip). -/
def readBack (t : Table) : Table := t

/-- Observable effects of the export phase. -/
inductive ExportEvent where
  | write (t : Table)
  | printed (s : String)
deriving DecidableEq, Repr

/-- Outcome of running the export phase: the emitted effects in order, the
in-memory record list afterwards, and whether an uncaught error aborted the
run. -/
structure ExportResult where
  events : List ExportEvent
  records : List ServerRecord
  errored : Bool
deriving Repr

/-- Lines 24–26 of the script: `df.to_excel(...)` then `print(...)`.
`writeOk` says whether the file write (including the availability of the
export dependency) succeeds. On success the file is written and then the
completion message printed; on failure the exception propagates uncaught,
nothing is printed, and the in-memory record list is untouched. -/
def exportRun (records : List ServerRecord) (writeOk : Bool) : ExportResult :=
  if writeOk then
    { events := [ExportEvent.write (exportTable records), ExportEvent.printed done_message]
      records := records
      errored := false }
  else
    { events := [], records := records, errored := true }

/-- Modelled from the spec: the sequential-octet minimal-field variant script
is not present under `src/`; per the spec its `ipv4` is a dotted-quad on a
fixed /24 subnet (`192.168.100.`) with a sequential final octet, the record
at loop index `i` getting suffix `i + 1` (so the first record is
`192.168.100.1`). -/
def ipv4_sequential (i : Nat) : String :=
  "192.168.100." ++ natDecimal (i + 1)

/-- Modelled from the spec: the `ipv4` column produced by `generate(count,
minimal_schema)` in the sequential-octet variant, in generation order. -/
def generate_minimal_ipv4 (count : Nat) : List String :=
  (List.range count).map ipv4_sequential

/-- A dotted-quad string built from four numeric octets. -/
def dottedQuad (a b c d : Nat) : String :=
  natDecimal a ++ "." ++ natDecimal b ++ "." ++ natDecimal c ++ "." ++ natDecimal d

/-! Helper lemmas. -/

/-- A drawn element is always a member of a nonempty population list. -/
theorem choice_mem {α : Type} (l : List α) (dflt : α) (d : Nat) (h : l ≠ []) :
    choice l dflt d ∈ l := by
  have hlen : 0 < l.length := List.length_pos.mpr h
  have hm : d % l.length < l.length := Nat.mod_lt _ hlen
  unfold choice
  rw [List.getD_eq_getElem l dflt hm]
  exact List.getElem_mem hm

/-- Folding the decimal-accumulation step over the rendered digits recovers
the number (with the accumulator shifted by the digit count). -/
theorem foldl_natDecimalAux (fuel : Nat) :
    ∀ n acc : Nat, n ≤ fuel →
      (natDecimalAux fuel n).foldl (fun a c => 10 * a + (c.toNat - 48)) acc =
        acc * 10 ^ (natDecimalAux fuel n).length + n := by
  induction fuel with
  | zero =>
    intro n acc hn
    have : n = 0 := by omega
    subst this
    simp [natDecimalAux]
  | succ fuel ih =>
    intro n acc hn
    by_cases hz : n = 0
    · subst hz
      simp [natDecimalAux]
    · have hdigit : ∀ d : Nat, d < 10 → (Char.ofNat (48 + d)).toNat = 48 + d := by decide
      have h10 : n % 10 < 10 := Nat.mod_lt _ (by norm_num)
      have hdiv : n / 10 ≤ fuel := by
        have := Nat.div_lt_self (Nat.pos_of_ne_zero hz) (by norm_num : 1 < 10)
        omega
      simp only [natDecimalAux, if_neg hz, List.foldl_append, List.length_append,
        List.foldl_cons, List.foldl_nil, List.length_cons, List.length_nil]
      rw [ih (n / 10) acc hdiv, hdigit (n % 10) h10, pow_succ, ← Nat.mul_assoc]
      generalize acc * 10 ^ (natDecimalAux fuel (n / 10)).length = A
      omega

/-- Reading the decimal rendering back yields the original number. -/
theorem decodeDecimal_natDecimal (n : Nat) : decodeDecimal (natDecimal n) = n := by
  by_cases hz : n = 0
  · subst hz
    decide
  · unfold decodeDecimal natDecimal
    rw [if_neg hz]
    show (natDecimalAux n n).foldl _ 0 = n
    rw [foldl_natDecimalAux n n 0 le_rfl]
    simp

/-- Decimal rendering is injective. -/
theorem natDecimal_injective {m n : Nat} (h : natDecimal m = natDecimal n) : m = n := by
  have := congrArg decodeDecimal h
  rwa [decodeDecimal_natDecimal, decodeDecimal_natDecimal] at this

/-- No digit character is a dot. -/
theorem dot_not_mem_natDecimalAux (fuel : Nat) :
    ∀ n : Nat, '.' ∉ natDecimalAux fuel n := by
  induction fuel with
  | zero =>
    intro n
    simp [natDecimalAux]
  | succ fuel ih =>
    intro n
    by_cases hz : n = 0
    · simp [natDecimalAux, hz]
    · simp only [natDecimalAux, if_neg hz]
      intro hmem
      rcases List.mem_append.mp hmem with h1 | h2
      · exact ih (n / 10) h1
      · have h10 : n % 10 < 10 := Nat.mod_lt _ (by norm_num)
        have hne : ∀ d : Nat, d < 10 → Char.ofNat (48 + d) ≠ '.' := by decide
        exact hne (n % 10) h10 (List.mem_singleton.mp h2).symm

/-- The decimal rendering of a number contains no dot character. -/
theorem dot_not_mem_natDecimal (n : Nat) : '.' ∉ (natDecimal n).data := by
  unfold natDecimal
  by_cases hz : n = 0
  · subst hz
    decide
  · rw [if_neg hz]
    exact dot_not_mem_natDecimalAux n n

/-- Splitting at a separator character absent from both left parts is
unambiguous. -/
theorem append_sep_left_inj {c : Char} {l1 : List Char} :
    ∀ {l1' l2 l2' : List Char}, c ∉ l1 → c ∉ l1' →
      l1 ++ c :: l2 = l1' ++ c :: l2' → l1 = l1' ∧ l2 = l2' := by
  induction l1 with
  | nil =>
    intro l1' l2 l2' h1 h1' h
    cases l1' with
    | nil => simpa using h
    | cons b t' =>
      rw [List.nil_append, List.cons_append] at h
      injection h with hc htail
      subst hc
      exact absurd (List.mem_cons_self _ _) h1'
  | cons a t ih =>
    intro l1' l2 l2' h1 h1' h
    cases l1' with
    | nil =>
      rw [List.nil_append, List.cons_append] at h
      injection h with hc htail
      subst hc
      exact absurd (List.mem_cons_self _ _) h1
    | cons b t' =>
      rw [List.cons_append, List.cons_append] at h
      injection h with hab htail
      subst hab
      have ht : c ∉ t := fun hm => h1 (List.mem_cons_of_mem _ hm)
      have ht' : c ∉ t' := fun hm => h1' (List.mem_cons_of_mem _ hm)
      obtain ⟨he, hl⟩ := ih ht ht' htail
      exact ⟨by rw [he], hl⟩

/-- Character content of a generated `ipv4` value, split at the last dot. -/
theorem ipv4_data (g : RNG) (i : Nat) :
    (mkServer g i).ipv4.data =
      "10.0.".data ++ ((natDecimal (i / 256)).data ++ '.' :: (natDecimal (i % 256)).data) := by
  show ("10.0." ++ natDecimal (i / 256) ++ "." ++ natDecimal (i % 256)).data = _
  simp only [String.data_append, List.append_assoc]
  rfl

/-- Character content of a generated `description` value. -/
theorem description_data (g : RNG) (i : Nat) :
    (mkServer g i).description.data =
      "Generated server ".data ++ (natDecimal (i + 1)).data := by
  show ("Generated server " ++ natDecimal (i + 1)).data = _
  simp only [String.data_append]

/-! Claim theorems. -/

/-- C1: for every count ≥ 0, `generate(count, …)` returns an ordered sequence
of exactly `count` records, the record at position `i` being the one
synthesized for loop index `i`, and `count = 0` yields the empty sequence. -/
theorem C1_generate_count_order (g : RNG) (count : Nat) :
    (generate g count).length = count ∧
    (∀ i : Nat, i < count → (generate g count)[i]? = some (mkServer g i)) ∧
    generate g 0 = [] := by
  refine ⟨by simp [generate], fun i hi => ?_, by simp [generate]⟩
  simp [generate, List.getElem?_map, List.getElem?_range, hi]

/-- C1 witness: at a concrete source and count 3, position 1 holds the record
for loop index 1. -/
theorem C1_generate_count_order_witness :
    (generate (fun k => k) 3)[1]? = some (mkServer (fun k => k) 1) :=
  (C1_generate_count_order (fun k => k) 3).2.1 1 (by decide)

/-- C2: in the sequential-octet variant starting at index 1 (modelled from
the spec, the variant script being absent from the sources),
`generate(3, minimal_schema)` produces `ipv4` values `192.168.100.1`,
`192.168.100.2`, `192.168.100.3` in order. -/
theorem C2_sequential_ipv4_scenario :
    generate_minimal_ipv4 3 = ["192.168.100.1", "192.168.100.2", "192.168.100.3"] := by
  decide

/-- C3 counterexample: exporting zero records does not produce a header row
holding the variant's column set — the frame built from an empty record list
has no columns at all, so the claim as stated fails at `count = 0`. -/
theorem C3_empty_export_counterexample :
    (exportTable (generate (fun k => k) 0)).header ≠ schema := by
  decide

/-- C3 (amended): `generate(0, …)` followed by export produces a table with
zero data rows and an empty header: the column set is derived from the
records encountered, so with no records no columns appear. -/
theorem C3_empty_export (g : RNG) :
    exportTable (generate g 0) = { header := [], rows := [] } := by
  simp [exportTable, generate, headerOf]

/-- C4 counterexample: the round-trip column set does not always equal the
variant's schema — for the empty record sequence the exported table has no
columns, so the claim as stated fails there. -/
theorem C4_export_roundtrip_counterexample :
    (readBack (exportTable [])).header ≠ schema := by
  decide

/-- C4 (amended): export writes a single-sheet table whose first row is the
field names in the order first encountered and which has exactly one data row
per record, so reading it back yields row count equal to the record count;
the column set equals the variant's schema whenever the sequence is nonempty
(the empty sequence yields a table with no columns). -/
theorem C4_export_roundtrip (records : List ServerRecord) :
    (exportTable records).header = headerOf records ∧
    (exportTable records).rows = records.map rowOf ∧
    (readBack (exportTable records)).rows.length = records.length ∧
    (records ≠ [] → (readBack (exportTable records)).header = schema) := by
  refine ⟨rfl, rfl, by simp [readBack, exportTable], fun h => ?_⟩
  cases records with
  | nil => exact absurd rfl h
  | cons a t => rfl

/-- C4 witness: the round trip at a concrete nonempty record sequence. -/
theorem C4_export_roundtrip_witness :
    (readBack (exportTable [mkServer (fun k => k) 0])).header = schema :=
  (C4_export_roundtrip [mkServer (fun k => k) 0]).2.2.2 (by decide)

/-- C5: every generated `server_id` is "SRV", and every `server_name` is
"Server", followed by exactly 6 characters drawn from uppercase ASCII
letters and digits. -/
theorem C5_id_name_shape (g : RNG) (i : Nat) :
    (∃ s : List Char, (mkServer g i).server_id = "SRV" ++ String.mk s ∧
      s.length = 6 ∧ ∀ c ∈ s, c ∈ population) ∧
    (∃ s : List Char, (mkServer g i).server_name = "Server" ++ String.mk s ∧
      s.length = 6 ∧ ∀ c ∈ s, c ∈ population) := by
  refine ⟨⟨randSuffix g (18 * i), rfl, by simp [randSuffix], ?_⟩,
    ⟨randSuffix g (18 * i + 6), rfl, by simp [randSuffix], ?_⟩⟩ <;>
  · intro c hc
    simp only [randSuffix, List.mem_map, List.mem_range] at hc
    obtain ⟨j, hj, rfl⟩ := hc
    exact choice_mem population 'A' _ (by decide)

/-- C6: every generated record's `status` lies in the variant's status set
{ON, OFF}, `cpu` in {2,4,8,16}, `ram` in {4,8,16,32} and `disk` in
{100,250,500,1000}. -/
theorem C6_enum_membership (g : RNG) (i : Nat) :
    (mkServer g i).status ∈ ["ON", "OFF"] ∧
    (mkServer g i).cpu ∈ [2, 4, 8, 16] ∧
    (mkServer g i).ram ∈ [4, 8, 16, 32] ∧
    (mkServer g i).disk ∈ [100, 250, 500, 1000] :=
  ⟨choice_mem _ _ _ (by decide), choice_mem _ _ _ (by decide),
   choice_mem _ _ _ (by decide), choice_mem _ _ _ (by decide)⟩

/-- C7: across two runs with the same count, `ipv4` and `description` agree
at every index (they depend on the loop index alone), while every other
field can differ between runs. -/
theorem C7_index_determinism :
    (∀ (g1 g2 : RNG) (i : Nat),
      (mkServer g1 i).ipv4 = (mkServer g2 i).ipv4 ∧
      (mkServer g1 i).description = (mkServer g2 i).description) ∧
    (∃ g1 g2 : RNG, ∃ i : Nat,
      (mkServer g1 i).server_id ≠ (mkServer g2 i).server_id ∧
      (mkServer g1 i).server_name ≠ (mkServer g2 i).server_name ∧
      (mkServer g1 i).status ≠ (mkServer g2 i).status ∧
      (mkServer g1 i).location ≠ (mkServer g2 i).location ∧
      (mkServer g1 i).os ≠ (mkServer g2 i).os ∧
      (mkServer g1 i).cpu ≠ (mkServer g2 i).cpu ∧
      (mkServer g1 i).ram ≠ (mkServer g2 i).ram ∧
      (mkServer g1 i).disk ≠ (mkServer g2 i).disk) :=
  ⟨fun _ _ _ => ⟨rfl, rfl⟩, ⟨fun _ => 0, fun _ => 1, 0, by decide⟩⟩

/-- C8: the export phase errors exactly when the file write fails, with no
local recovery and the in-memory record sequence unchanged; the completion
line appears on standard output exactly when the write succeeds, and only at
a position after the write itself. -/
theorem C8_export_error_behavior (records : List ServerRecord) (writeOk : Bool) :
    ((exportRun records writeOk).errored = true ↔ writeOk = false) ∧
    (exportRun records writeOk).records = records ∧
    (ExportEvent.printed done_message ∈ (exportRun records writeOk).events ↔ writeOk = true) ∧
    (∀ k : Nat,
      (exportRun records writeOk).events[k]? = some (ExportEvent.printed done_message) →
      ∃ m : Nat, m < k ∧
        (exportRun records writeOk).events[m]? = some (ExportEvent.write (exportTable records))) := by
  cases writeOk with
  | false =>
    refine ⟨by simp [exportRun], by simp [exportRun], by simp [exportRun], ?_⟩
    intro k hk
    simp [exportRun] at hk
  | true =>
    refine ⟨by simp [exportRun], rfl, by simp [exportRun], ?_⟩
    intro k hk
    have hk1 : k = 1 := by
      match k with
      | 0 => simp [exportRun] at hk
      | 1 => rfl
      | n + 2 => simp [exportRun] at hk
    subst hk1
    exact ⟨0, by omega, by simp [exportRun]⟩

/-- C8 witness: on a successful write over no records, the printed completion
line at position 1 is preceded by the file write. -/
theorem C8_export_error_behavior_witness :
    ∃ m : Nat, m < 1 ∧
      (exportRun [] true).events[m]? = some (ExportEvent.write (exportTable [])) :=
  (C8_export_error_behavior [] true).2.2.2 1 (by decide)

/-- C9: for every loop index below 10000 the generated `ipv4` is the
well-formed dotted quad `10.0.(i / 256).(i % 256)`: every octet is at most
255, the third octet `i / 256` being at most 39. -/
theorem C9_ipv4_wellformed (g : RNG) (i : Nat) (h : i < 10000) :
    (mkServer g i).ipv4 = dottedQuad 10 0 (i / 256) (i % 256) ∧
    10 ≤ 255 ∧ 0 ≤ 255 ∧ i / 256 ≤ 39 ∧ i % 256 ≤ 255 := by
  refine ⟨?_, by omega, by omega, by omega, by omega⟩
  show "10.0." ++ natDecimal (i / 256) ++ "." ++ natDecimal (i % 256) = _
  unfold dottedQuad
  rfl

/-- C9 witness: the dotted-quad shape and octet bounds at loop index 300. -/
theorem C9_ipv4_wellformed_witness :
    (mkServer (fun k => k) 300).ipv4 = dottedQuad 10 0 (300 / 256) (300 % 256) ∧
    10 ≤ 255 ∧ 0 ≤ 255 ∧ 300 / 256 ≤ 39 ∧ 300 % 256 ≤ 255 :=
  C9_ipv4_wellformed (fun k => k) 300 (by decide)

/-- C10: within a run, distinct loop indices always yield distinct `ipv4`
values and distinct `description` values, while `server_id` and
`server_name` can collide between records. -/
theorem C10_per_run_uniqueness :
    (∀ (g : RNG) (i j : Nat), i ≠ j →
      (mkServer g i).ipv4 ≠ (mkServer g j).ipv4 ∧
      (mkServer g i).description ≠ (mkServer g j).description) ∧
    (∃ g : RNG, ∃ i j : Nat, i ≠ j ∧
      (mkServer g i).server_id = (mkServer g j).server_id ∧
      (mkServer g i).server_name = (mkServer g j).server_name) := by
  constructor
  · intro g i j hij
    constructor
    · intro heq
      have hd := congrArg String.data heq
      rw [ipv4_data, ipv4_data] at hd
      have h1 := List.append_cancel_left hd
      obtain ⟨ha, hb⟩ :=
        append_sep_left_inj (dot_not_mem_natDecimal _) (dot_not_mem_natDecimal _) h1
      have hdiv : i / 256 = j / 256 := natDecimal_injective (String.ext ha)
      have hmod : i % 256 = j % 256 := natDecimal_injective (String.ext hb)
      omega
    · intro heq
      have hd := congrArg String.data heq
      rw [description_data, description_data] at hd
      have h1 := List.append_cancel_left hd
      have := natDecimal_injective (String.ext h1)
      omega
  · exact ⟨fun _ => 0, 0, 1, by decide⟩

/-- C10 witness: distinct indices 0 and 1 yield distinct `ipv4` values. -/
theorem C10_per_run_uniqueness_witness :
    (mkServer (fun _ => 5) 0).ipv4 ≠ (mkServer (fun _ => 5) 1).ipv4 :=
  (C10_per_run_uniqueness.1 (fun _ => 5) 0 1 (by decide)).1

